import Mathlib

/-!
Shallow embedding of `src/app.py` (MedGuard AI, a single-file clinical
early-warning demo).

Modelling conventions:
* Python floats are embedded as `ℚ`; the claims at stake concern exact
  comparisons, clipping and affine arithmetic, none of which depend on
  floating-point rounding.
* `np.random` is modelled abstractly.  Seeding the legacy global numpy
  generator with a key determines an infinite stream of standard-normal
  draws; we pass that stream as a function `g : ℕ → ℚ` (index ∈ stream
  position).  `np.random.normal (mu, sigma, n)` at stream position `p`
  yields `mu + sigma * g (p + i)` for `i < n`.  The process-wide generator
  state is a pair (seed key, number of draws consumed); `np.random.seed k`
  discards the previous state.
* numpy raises `ValueError` when `np.random.normal` receives a negative
  size and when `np.linspace` receives a negative sample count; these are
  the only failure points the generator can hit, modelled with `Except`.
-/

namespace MedGuard

/-- The three trajectory modes selected at `src/app.py:131`. -/
inductive Mode
  | stable
  | early
  | severe
deriving DecidableEq

/-- One row of the generated vital-signs DataFrame (`src/app.py:110-116`). -/
structure VitalSample where
  hour : ℕ
  heart_rate : ℚ
  systolic_bp : ℚ
  spo2 : ℚ
  temperature : ℚ
deriving DecidableEq

/-- The only exception the generator can raise (numpy `ValueError`, from a
negative array size in `np.random.normal` or a negative sample count in
`np.linspace`). -/
inductive GenError
  | valueError
deriving DecidableEq

/-- Embedding of `np.linspace start stop num` for a non-negative sample count:
`num = 1` gives `[start]`; otherwise `num` evenly spaced points from
`start` to `stop` inclusive.  (`num = 0` gives `[]`.)  The negative-`num`
`ValueError` is raised by the caller, which checks the sign. -/
def np_linspace (start stop : ℚ) (num : ℕ) : List ℚ :=
  if num = 1 then [start]
  else (List.range num).map (fun i : ℕ => start + (stop - start) * (i : ℚ) / ((num : ℚ) - 1))

/-- Row `i` of the baseline DataFrame built at `src/app.py:110-116`:
`hour = i`, and the four channels are drawn from the seeded stream `g` by
the four sequential `np.random.normal` calls (heart_rate occupies stream
positions `[0, n)`, systolic_bp `[n, 2n)`, spo2 `[2n, 3n)`, temperature
`[3n, 4n)`). -/
def base_row (g : ℕ → ℚ) (n i : ℕ) : VitalSample :=
  { hour := i
  , heart_rate := 78 + 5 * g i
  , systolic_bp := 125 + 8 * g (n + i)
  , spo2 := 98 + 1 * g (2 * n + i)
  , temperature := 36.8 + 0.2 * g (3 * n + i) }

/-- The elementwise update `df.loc[28:, ·] ±= np.linspace(...)` of mode
early (`src/app.py:118-121`), acting on one row of an `n`-row DataFrame:
rows before hour `28` are untouched; row `28 + j` gains
`np.linspace(0, 18, n - 28)[j]` on heart_rate, loses
`np.linspace(0, 15, n - 28)[j]` on systolic_bp and
`np.linspace(0, 3, n - 28)[j]` on spo2, and keeps its temperature. -/
def early_ramp_fun (n : ℕ) (s : VitalSample) : VitalSample :=
  if s.hour < 28 then s else
  { s with heart_rate := s.heart_rate + (np_linspace 0 18 (n - 28)).getD (s.hour - 28) 0
         , systolic_bp := s.systolic_bp - (np_linspace 0 15 (n - 28)).getD (s.hour - 28) 0
         , spo2 := s.spo2 - (np_linspace 0 3 (n - 28)).getD (s.hour - 28) 0 }

/-- The elementwise update of mode severe (`src/app.py:123-127`):
offset `20`, larger ramps, and an additional additive temperature ramp
`np.linspace(0.3, 1.2, n - 20)`. -/
def severe_ramp_fun (n : ℕ) (s : VitalSample) : VitalSample :=
  if s.hour < 20 then s else
  { s with heart_rate := s.heart_rate + (np_linspace 10 35 (n - 20)).getD (s.hour - 20) 0
         , systolic_bp := s.systolic_bp - (np_linspace 10 45 (n - 20)).getD (s.hour - 20) 0
         , spo2 := s.spo2 - (np_linspace 3 9 (n - 20)).getD (s.hour - 20) 0
         , temperature := s.temperature + (np_linspace 0.3 1.2 (n - 20)).getD (s.hour - 20) 0 }

/-- Embedding of `generate_patient_data(hours, mode)` (`src/app.py:108-129`), given the
standard-normal stream `g` produced by `np.random.seed(42)`.

* `hours < 0`: `np.random.normal(78, 5, hours)` raises `ValueError`.
* `mode == "early"`: `df.loc[28:, c] ±= np.linspace(a, b, hours - 28)`;
  `np.linspace` raises `ValueError` iff `hours - 28 < 0`, and otherwise the
  rows with label `≥ 28` (there are `hours - 28` of them) receive the ramp
  `early_ramp_fun`.
* `mode == "severe"`: same with offset `20` and a temperature ramp,
  `severe_ramp_fun`. -/
def generate_patient_data (g : ℕ → ℚ) (hours : Int) (mode : Mode) :
    Except GenError (List VitalSample) :=
  if hours < 0 then .error .valueError else
  let n := hours.toNat
  let base := (List.range n).map (base_row g n)
  match mode with
  | .stable => .ok base
  | .early =>
    if hours < 28 then .error .valueError else
    .ok (base.map (early_ramp_fun n))
  | .severe =>
    if hours < 20 then .error .valueError else
    .ok (base.map (severe_ramp_fun n))

/-- Value of the generator in mode stable for `hours ≥ 0`. -/
lemma generate_stable_eq (g : ℕ → ℚ) (hours : Int) (h0 : ¬ hours < 0) :
    generate_patient_data g hours Mode.stable =
      .ok ((List.range hours.toNat).map (base_row g hours.toNat)) := by
  unfold generate_patient_data
  rw [if_neg h0]

/-- Value of the generator in mode early for `hours ≥ 28`. -/
lemma generate_early_eq (g : ℕ → ℚ) (hours : Int) (h0 : ¬ hours < 0) (h1 : ¬ hours < 28) :
    generate_patient_data g hours Mode.early =
      .ok (((List.range hours.toNat).map (base_row g hours.toNat)).map
        (early_ramp_fun hours.toNat)) := by
  unfold generate_patient_data
  rw [if_neg h0]
  show (if hours < 28 then _ else _) = _
  rw [if_neg h1]

/-- Value of the generator in mode severe for `hours ≥ 20`. -/
lemma generate_severe_eq (g : ℕ → ℚ) (hours : Int) (h0 : ¬ hours < 0) (h1 : ¬ hours < 20) :
    generate_patient_data g hours Mode.severe =
      .ok (((List.range hours.toNat).map (base_row g hours.toNat)).map
        (severe_ramp_fun hours.toNat)) := by
  unfold generate_patient_data
  rw [if_neg h0]
  show (if hours < 20 then _ else _) = _
  rw [if_neg h1]

/-- A negative duration makes `np.random.normal` raise in every mode. -/
lemma generate_neg_err (g : ℕ → ℚ) (hours : Int) (mode : Mode) (h0 : hours < 0) :
    generate_patient_data g hours mode = .error .valueError := by
  unfold generate_patient_data
  rw [if_pos h0]

/-- With `0 ≤ hours < 28`, mode early raises from `np.linspace`. -/
lemma generate_early_err (g : ℕ → ℚ) (hours : Int) (h0 : ¬ hours < 0) (h1 : hours < 28) :
    generate_patient_data g hours Mode.early = .error .valueError := by
  unfold generate_patient_data
  rw [if_neg h0]
  show (if hours < 28 then _ else _) = _
  rw [if_pos h1]

/-- With `0 ≤ hours < 20`, mode severe raises from `np.linspace`. -/
lemma generate_severe_err (g : ℕ → ℚ) (hours : Int) (h0 : ¬ hours < 0) (h1 : hours < 20) :
    generate_patient_data g hours Mode.severe = .error .valueError := by
  unfold generate_patient_data
  rw [if_neg h0]
  show (if hours < 20 then _ else _) = _
  rw [if_pos h1]

/-- Abstract state of the process-wide legacy numpy generator: the seed key
last installed by `np.random.seed`, and the number of standard-normal draws
consumed since then. -/
structure NpRngState where
  key : ℕ
  pos : ℕ
deriving DecidableEq

/-- Embedding of `np.random.seed k`: discards the previous global state entirely. -/
def np_seed (k : ℕ) (_s : NpRngState) : NpRngState := { key := k, pos := 0 }

/-- Embedding of `np.random.normal(mu, sigma, count)` against the global state `s`,
where `G key i` is the `i`-th standard-normal value of the stream that
seeding with `key` determines: advances the state by `count` draws and
returns the sampled values (as a function of the index within the batch). -/
def np_normal_batch (G : ℕ → ℕ → ℚ) (mu sigma : ℚ) (count : ℕ) (s : NpRngState) :
    NpRngState × (ℕ → ℚ) :=
  ({ key := s.key, pos := s.pos + count }, fun i => mu + sigma * G s.key (s.pos + i))

/-- Embedding of `generate_patient_data` with the global numpy generator state threaded
explicitly (`src/app.py:108-129`): the body first executes
`np.random.seed(42)`, then (for `hours ≥ 0`) performs the four
`np.random.normal(·, ·, hours)` batch draws, then applies the mode ramp.
Returns the global state the call leaves behind together with its result. -/
def generate_patient_data_st (G : ℕ → ℕ → ℚ) (s : NpRngState) (hours : Int) (mode : Mode) :
    NpRngState × Except GenError (List VitalSample) :=
  let s1 := np_seed 42 s
  if hours < 0 then (s1, .error .valueError) else
  let n := hours.toNat
  let b1 := np_normal_batch G 78 5 n s1
  let b2 := np_normal_batch G 125 8 n b1.fst
  let b3 := np_normal_batch G 98 1 n b2.fst
  let b4 := np_normal_batch G 36.8 0.2 n b3.fst
  let base := (List.range n).map (fun i =>
    { hour := i, heart_rate := b1.snd i, systolic_bp := b2.snd i, spo2 := b3.snd i
    , temperature := b4.snd i : VitalSample })
  match mode with
  | .stable => (b4.fst, .ok base)
  | .early =>
    if hours < 28 then (b4.fst, .error .valueError) else
    (b4.fst, .ok (base.map (early_ramp_fun n)))
  | .severe =>
    if hours < 20 then (b4.fst, .error .valueError) else
    (b4.fst, .ok (base.map (severe_ramp_fun n)))

/-- One row of the synthetic training set (`src/app.py:137-151`). -/
structure TrainRow where
  heart_rate : ℚ
  systolic_bp : ℚ
  spo2 : ℚ
  temperature : ℚ
  label : ℕ
deriving DecidableEq

/-- Iteration `k` of the loop in `generate_training_data`
(`src/app.py:140-146`): four sequential scalar `np.random.normal` draws
from the stream `g` installed by `np.random.seed(1)` (so iteration `k`
consumes stream positions `4k .. 4k+3`), and the label
`int((hr > 100) or (bp < 95) or (spo2 < 92))`. -/
def train_row (g : ℕ → ℚ) (k : ℕ) : TrainRow :=
  let hr := 85 + 15 * g (4 * k)
  let bp := 120 + 20 * g (4 * k + 1)
  let sp := 96 + 3 * g (4 * k + 2)
  let tm := 37 + 0.6 * g (4 * k + 3)
  { heart_rate := hr
  , systolic_bp := bp
  , spo2 := sp
  , temperature := tm
  , label := if hr > 100 ∨ bp < 95 ∨ sp < 92 then 1 else 0 }

/-- Embedding of `generate_training_data(samples)` (`src/app.py:137-151`), given the
standard-normal stream `g` produced by `np.random.seed(1)`. -/
def generate_training_data (g : ℕ → ℚ) (samples : ℕ) : List TrainRow :=
  (List.range samples).map (train_row g)

/-- Feature extraction `train[["heart_rate", "systolic_bp", "spo2",
"temperature"]]` (`src/app.py:154`). -/
def features_of (r : TrainRow) : List ℚ :=
  [r.heart_rate, r.systolic_bp, r.spo2, r.temperature]

/-- The design matrix `X_train` handed to `model.fit` at
`src/app.py:154-158`: the raw feature columns of
`generate_training_data()` with the default `samples=400`. -/
def X_train (g : ℕ → ℚ) : List (List ℚ) :=
  (generate_training_data g 400).map features_of

/-- Feature extraction `data[["heart_rate", "systolic_bp", "spo2",
"temperature"]]` for the trajectory handed to `model.predict_proba`
(`src/app.py:163`). -/
def X_patient_of (traj : List VitalSample) : List (List ℚ) :=
  traj.map (fun v => [v.heart_rate, v.systolic_bp, v.spo2, v.temperature])

/-- Mean of column `j` of a feature matrix. -/
def col_mean (X : List (List ℚ)) (j : ℕ) : ℚ :=
  (X.map (fun r => r.getD j 0)).sum / X.length

/-- (Population) variance of column `j` of a feature matrix. -/
def col_var (X : List (List ℚ)) (j : ℕ) : ℚ :=
  (X.map (fun r => (r.getD j 0 - col_mean X j) ^ 2)).sum / X.length

/-- Modelled from the spec: "Features are standardized (zero mean, unit
variance using the training set's own statistics) before fitting".  No
standardization step exists anywhere in `src/app.py`; this predicate states
the property the spec requires of the matrix handed to `model.fit`: every
one of the four feature columns has mean `0` and variance `1`. -/
def IsStandardized (X : List (List ℚ)) : Prop :=
  ∀ j < 4, col_mean X j = 0 ∧ col_var X j = 1

/-- The scenario selected in the UI dropdown (`src/app.py:100-103`):
"Stable Patient", "Early Deterioration", "Critical Condition". -/
inductive Scenario
  | stablePatient
  | earlyDeterioration
  | criticalCondition
deriving DecidableEq

/-- Embedding of `np.clip(x, lo, hi)` = `np.minimum(np.maximum(x, lo), hi)`. -/
def np_clip (x lo hi : ℚ) : ℚ := min (max x lo) hi

/-- Lower clip bound of the "Controlled risk" block (`src/app.py:168-173`). -/
def clip_lo : Scenario → ℚ
  | .stablePatient => 0.10
  | .earlyDeterioration => 0.40
  | .criticalCondition => 0.75

/-- Upper clip bound of the "Controlled risk" block (`src/app.py:168-173`). -/
def clip_hi : Scenario → ℚ
  | .stablePatient => 0.30
  | .earlyDeterioration => 0.60
  | .criticalCondition => 0.95

/-- The `risk` value the script reports (`src/app.py:167-173`): the model's
predicted probability for the last sample (`raw_risk`), clipped to a
scenario-dependent interval. -/
def risk (scenario : Scenario) (raw_risk : ℚ) : ℚ :=
  np_clip raw_risk (clip_lo scenario) (clip_hi scenario)

/-- The qualitative risk level (`src/app.py:178-192`). -/
inductive Level
  | stable
  | earlyDeterioration
  | criticalCondition
deriving DecidableEq

/-- The `level` branch at `src/app.py:178-192`: `risk < 0.35` → "Stable",
`risk < 0.7` → "Early Deterioration", otherwise "Critical Condition". -/
def level (risk : ℚ) : Level :=
  if risk < 0.35 then .stable
  else if risk < 0.7 then .earlyDeterioration
  else .criticalCondition

/-- The stream of all-zero draws, used to instantiate witnesses. -/
def gZero : ℕ → ℚ := fun _ => 0

/-- C4: classification maps a score strictly below `0.35` to Stable, a
score strictly below `0.7` to Early Deterioration, and every other score to
Critical Condition; a score exactly `0.35` maps to Early Deterioration and
exactly `0.7` to Critical Condition (ties go to the higher-severity
bucket).  The thresholds `low = 0.35`, `high = 0.7` are the ones hardcoded
at `src/app.py:178-192`. -/
theorem c4_classification_boundaries :
    ∀ r : ℚ,
      (level r = Level.stable ↔ r < 0.35) ∧
      (level r = Level.earlyDeterioration ↔ 0.35 ≤ r ∧ r < 0.7) ∧
      (level r = Level.criticalCondition ↔ 0.7 ≤ r) ∧
      level 0.35 = Level.earlyDeterioration ∧
      level 0.7 = Level.criticalCondition := by
  intro r
  refine ⟨?_, ?_, ?_, ?_, ?_⟩
  · unfold level
    split_ifs with h1 h2
    · simpa using h1
    · simp only [reduceCtorEq, false_iff]
      linarith
    · simp only [reduceCtorEq, false_iff]
      linarith
  · unfold level
    split_ifs with h1 h2
    · simp only [reduceCtorEq, false_iff, not_and]
      intro h
      linarith
    · simp only [true_iff]
      exact ⟨by linarith, h2⟩
    · simp only [reduceCtorEq, false_iff, not_and]
      intro h
      linarith
  · unfold level
    split_ifs with h1 h2
    · simp only [reduceCtorEq, false_iff]
      intro h
      linarith
    · simp only [reduceCtorEq, false_iff]
      intro h
      linarith
    · simp only [true_iff]
      linarith
  · norm_num [level]
  · norm_num [level]

/-- C1 counterexample: the risk score the script reports is not the score
the model produced.  When the computed probability `raw_risk` is `0` under
the "Stable Patient" scenario, the reported `risk` is `0.10`, not `0`. -/
theorem c1_core_returns_raw_score_counterexample :
    risk Scenario.stablePatient 0 ≠ 0 := by
  norm_num [risk, np_clip, clip_lo, clip_hi]

/-- C1 amended: the reported risk equals the computed model score clipped
to a scenario-dependent interval (`[0.10, 0.30]` for Stable Patient,
`[0.40, 0.60]` for Early Deterioration, `[0.75, 0.95]` for Critical
Condition); the computed score is passed through unchanged exactly when it
already lies inside the scenario's interval. -/
theorem c1_risk_is_clipped_score :
    ∀ (scenario : Scenario) (raw_risk : ℚ),
      clip_lo scenario ≤ risk scenario raw_risk ∧
      risk scenario raw_risk ≤ clip_hi scenario ∧
      (risk scenario raw_risk = raw_risk ↔
        clip_lo scenario ≤ raw_risk ∧ raw_risk ≤ clip_hi scenario) := by
  intro scenario raw_risk
  have hlh : clip_lo scenario ≤ clip_hi scenario := by
    cases scenario <;> norm_num [clip_lo, clip_hi]
  have h1 : clip_lo scenario ≤ risk scenario raw_risk :=
    le_min (le_max_right _ _) hlh
  have h2 : risk scenario raw_risk ≤ clip_hi scenario := min_le_right _ _
  refine ⟨h1, h2, ?_, ?_⟩
  · intro h
    exact ⟨h ▸ h1, h ▸ h2⟩
  · rintro ⟨ha, hb⟩
    unfold risk np_clip
    rw [max_eq_left ha, min_eq_left hb]

/-- C10: the displayed risk level is fully determined by the selected
scenario, whatever probability the model computes: the scenario-dependent
clipping intervals `[0.10, 0.30]`, `[0.40, 0.60]` and `[0.75, 0.95]` each
lie inside a single classification bucket of the thresholds `0.35`/`0.7`,
so Stable Patient always shows Stable, Early Deterioration always shows
Early Deterioration, and Critical Condition always shows Critical
Condition. -/
theorem c10_level_determined_by_scenario :
    ∀ raw_risk : ℚ,
      level (risk Scenario.stablePatient raw_risk) = Level.stable ∧
      level (risk Scenario.earlyDeterioration raw_risk) = Level.earlyDeterioration ∧
      level (risk Scenario.criticalCondition raw_risk) = Level.criticalCondition := by
  intro raw_risk
  refine ⟨?_, ?_, ?_⟩
  · have h2 : risk Scenario.stablePatient raw_risk ≤ 0.30 := min_le_right _ _
    unfold level
    rw [if_pos (by linarith)]
  · have h1 : (0.40 : ℚ) ≤ risk Scenario.earlyDeterioration raw_risk :=
      le_min (le_max_right _ _) (by norm_num [clip_hi])
    have h2 : risk Scenario.earlyDeterioration raw_risk ≤ 0.60 := min_le_right _ _
    unfold level
    rw [if_neg (by linarith), if_pos (by linarith)]
  · have h1 : (0.75 : ℚ) ≤ risk Scenario.criticalCondition raw_risk :=
      le_min (le_max_right _ _) (by norm_num [clip_hi])
    unfold level
    rw [if_neg (by linarith), if_neg (by linarith)]

/-- C2 counterexample: the claim "the generator fails exactly when
`hours <= 0` or `hours <=` the mode's ramp offset" is false on the code:
`generate_patient_data(0, "stable")` succeeds (returning an empty
DataFrame), and `generate_patient_data(28, "early")` succeeds even though
`hours` equals the early offset `28` (the ramp slice and the
`np.linspace(·, ·, 0)` array are both empty). -/
theorem c2_invalid_argument_counterexample :
    generate_patient_data gZero 0 Mode.stable = Except.ok [] ∧
    (generate_patient_data gZero 28 Mode.early).toOption ≠ none := by
  constructor
  · simp [generate_patient_data]
  · simp [generate_patient_data, Except.toOption]

/-- C2 amended: the generator fails — with a numpy `ValueError`, there is
no explicit `InvalidArgument` check in the code — exactly when `hours < 0`
(negative `np.random.normal` size), or `hours < 28` in mode early, or
`hours < 20` in mode severe (negative `np.linspace` count).  In particular
`hours = 0` (stable) and `hours =` the mode's offset succeed, where the
claim said they must fail. -/
theorem c2_failure_condition :
    ∀ (g : ℕ → ℚ) (hours : Int) (mode : Mode),
      generate_patient_data g hours mode = Except.error GenError.valueError ↔
        hours < 0 ∨ (mode = Mode.early ∧ hours < 28) ∨ (mode = Mode.severe ∧ hours < 20) := by
  intro g hours mode
  cases mode <;> simp only [generate_patient_data] <;> split_ifs <;> simp_all

/-- C5: every generated training example carries label `1` iff its own
`heart_rate > 100` or `systolic_bp < 95` or `spo2 < 92`, evaluated on the
example's four feature values at generation time, and label `0`
otherwise. -/
theorem c5_training_label_rule :
    ∀ (g : ℕ → ℚ) (samples : ℕ) (r : TrainRow), r ∈ generate_training_data g samples →
      (r.label = 1 ↔ (r.heart_rate > 100 ∨ r.systolic_bp < 95 ∨ r.spo2 < 92)) ∧
      (r.label = 0 ↔ ¬(r.heart_rate > 100 ∨ r.systolic_bp < 95 ∨ r.spo2 < 92)) := by
  intro g samples r hr
  unfold generate_training_data at hr
  rcases List.mem_map.mp hr with ⟨k, _, rfl⟩
  simp only [train_row]
  split_ifs with h <;> simp [h]

/-- The training row produced by iteration `0` on the all-zero stream:
features at the distribution means, hence label `0`. -/
def trainRowW : TrainRow :=
  { heart_rate := 85, systolic_bp := 120, spo2 := 96, temperature := 37, label := 0 }

/-- C5 witness: the concrete row `(85, 120, 96, 37)` is a member of a
generated training set and satisfies the label rule. -/
theorem c5_training_label_rule_witness :
    trainRowW ∈ generate_training_data gZero 1 ∧
    ((trainRowW.label = 1 ↔
        (trainRowW.heart_rate > 100 ∨ trainRowW.systolic_bp < 95 ∨ trainRowW.spo2 < 92)) ∧
      (trainRowW.label = 0 ↔
        ¬(trainRowW.heart_rate > 100 ∨ trainRowW.systolic_bp < 95 ∨ trainRowW.spo2 < 92))) := by
  have hm : trainRowW ∈ generate_training_data gZero 1 := by
    norm_num [generate_training_data, train_row, gZero, trainRowW, List.range_succ]
  exact ⟨hm, c5_training_label_rule gZero 1 trainRowW hm⟩

/-- C3 amended: no standardization exists in `src/app.py` — row `k` of the
design matrix handed to `model.fit` at `src/app.py:158` is exactly the raw
drawn feature vector, untranslated and unscaled. -/
theorem c3_fit_on_raw_features :
    ∀ (g : ℕ → ℚ) (k : ℕ), k < 400 →
      (X_train g).getD k [] =
        [85 + 15 * g (4 * k), 120 + 20 * g (4 * k + 1),
         96 + 3 * g (4 * k + 2), 37 + 0.6 * g (4 * k + 3)] := by
  intro g k hk
  have hlen : k < (X_train g).length := by
    simpa [X_train, generate_training_data] using hk
  rw [List.getD_eq_getElem _ _ hlen]
  simp [X_train, generate_training_data, features_of, train_row]

/-- C3 witness: row `0` of the fit input on the all-zero stream is the raw
vector `(85, 120, 96, 37)`. -/
theorem c3_fit_on_raw_features_witness :
    (0 : ℕ) < 400 ∧ (X_train gZero).getD 0 [] = [85, 120, 96, 37] := by
  refine ⟨by norm_num, ?_⟩
  rw [c3_fit_on_raw_features gZero 0 (by norm_num)]
  norm_num [gZero]

/-- All four hundred rows of the training set generated from the all-zero
stream coincide with `trainRowW`. -/
lemma training_data_gZero (n : ℕ) :
    generate_training_data gZero n = List.replicate n trainRowW := by
  unfold generate_training_data
  have h : ∀ k ∈ List.range n, train_row gZero k = trainRowW := by
    intro k _
    norm_num [train_row, gZero, trainRowW]
  rw [List.map_congr_left h]
  simp [List.map_const', List.length_range]

/-- C3 counterexample: the matrix handed to `model.fit` is not
standardized: on the all-zero stream its first column is constantly `85`,
so its mean is `85`, not `0`. -/
theorem c3_standardization_counterexample : ¬ IsStandardized (X_train gZero) := by
  intro h
  have h0 := (h 0 (by norm_num)).1
  rw [X_train, training_data_gZero, List.map_replicate] at h0
  rw [col_mean, List.map_replicate, List.sum_replicate, List.length_replicate] at h0
  rw [nsmul_eq_mul] at h0
  norm_num [features_of, trainRowW] at h0

/-- Shape invariant of a generated trajectory: as many samples as `hours`,
with `hour` values exactly `0, 1, ..., hours - 1` in order. -/
def TrajShape (hours : Int) (traj : List VitalSample) : Prop :=
  (traj.length : Int) = hours ∧
  ∀ i (h : i < traj.length), (traj.get ⟨i, h⟩).hour = i

/-- Any post-processing that fixes the `hour` field keeps the shape
invariant of the baseline DataFrame. -/
lemma trajShape_base_map (g : ℕ → ℚ) (hours : Int) (h0 : ¬ hours < 0)
    (f : VitalSample → VitalSample) (hf : ∀ s, (f s).hour = s.hour) :
    TrajShape hours (((List.range hours.toNat).map (base_row g hours.toNat)).map f) := by
  constructor
  · simp [Int.toNat_of_nonneg (not_lt.mp h0)]
  · intro i hi
    simp [List.get_eq_getElem, hf, base_row]

/-- C6: every successfully generated trajectory has exactly `hours`
samples and its `hour` values are the contiguous integers
`0, ..., hours - 1` in order, for every mode. -/
theorem c6_trajectory_shape :
    ∀ (g : ℕ → ℚ) (hours : Int) (mode : Mode) (traj : List VitalSample),
      generate_patient_data g hours mode = Except.ok traj → TrajShape hours traj := by
  intro g hours mode traj h
  have h0 : ¬ hours < 0 := by
    intro h0
    rw [generate_neg_err g hours mode h0] at h
    exact absurd h (by simp)
  cases mode
  case stable =>
    rw [generate_stable_eq g hours h0] at h
    injection h with h2
    have := trajShape_base_map g hours h0 id (fun s => rfl)
    rwa [List.map_id, h2] at this
  case early =>
    have h1 : ¬ hours < 28 := by
      intro h1
      rw [generate_early_err g hours h0 h1] at h
      exact absurd h (by simp)
    rw [generate_early_eq g hours h0 h1] at h
    injection h with h2
    rw [← h2]
    exact trajShape_base_map g hours h0 _
      (fun s => by unfold early_ramp_fun; split_ifs <;> rfl)
  case severe =>
    have h1 : ¬ hours < 20 := by
      intro h1
      rw [generate_severe_err g hours h0 h1] at h
      exact absurd h (by simp)
    rw [generate_severe_eq g hours h0 h1] at h
    injection h with h2
    rw [← h2]
    exact trajShape_base_map g hours h0 _
      (fun s => by unfold severe_ramp_fun; split_ifs <;> rfl)

/-- The two-row trajectory produced by mode stable on the all-zero stream:
every channel sits at its baseline mean. -/
def trajW : List VitalSample :=
  [ { hour := 0, heart_rate := 78, systolic_bp := 125, spo2 := 98, temperature := 36.8 }
  , { hour := 1, heart_rate := 78, systolic_bp := 125, spo2 := 98, temperature := 36.8 } ]

/-- C6 witness: the concrete call with `hours = 2`, mode stable, on the
all-zero stream returns `trajW`, which has the required shape. -/
theorem c6_trajectory_shape_witness :
    generate_patient_data gZero 2 Mode.stable = Except.ok trajW ∧ TrajShape 2 trajW := by
  have h : generate_patient_data gZero 2 Mode.stable = Except.ok trajW := by
    simp [generate_patient_data, base_row, gZero, trajW, List.range_succ]
  exact ⟨h, c6_trajectory_shape gZero 2 Mode.stable trajW h⟩

/-- Entries of `np.linspace a b num` with `0 ≤ a ≤ b` are non-negative
(and the out-of-range `getD` default `0` is, too). -/
lemma np_linspace_getD_nonneg (a b : ℚ) (num k : ℕ) (ha : 0 ≤ a) (hab : a ≤ b) :
    0 ≤ (np_linspace a b num).getD k 0 := by
  unfold np_linspace
  split_ifs with h1
  · match k with
    | 0 => simpa using ha
    | k + 1 => simp
  · rcases lt_or_ge k num with hk | hk
    · have hlen : k < ((List.range num).map
          (fun i : ℕ => a + (b - a) * (i : ℚ) / ((num : ℚ) - 1))).length := by simpa using hk
      rw [List.getD_eq_getElem _ _ hlen]
      simp only [List.getElem_map, List.getElem_range]
      have h2 : 2 ≤ num := by omega
      have hden : (0:ℚ) ≤ (num : ℚ) - 1 := by
        have h2q : (2:ℚ) ≤ (num : ℚ) := by exact_mod_cast h2
        linarith
      have hnum : (0:ℚ) ≤ (b - a) * (k : ℚ) := by
        have hk0 : (0:ℚ) ≤ (k : ℚ) := by positivity
        have hba : (0:ℚ) ≤ b - a := by linarith
        exact mul_nonneg hba hk0
      have hdiv := div_nonneg hnum hden
      linarith
    · rw [List.getD_eq_default _ _ (by simpa using hk)]

/-- What the claim asserts of mode early, relative to the baseline that
mode stable would produce from the same draws: same length; rows before
hour `28` untouched; from hour `28` the heart rate gains, the systolic
blood pressure and SpO2 lose, a non-negative `np.linspace` ramp added
elementwise to the baseline value, while the temperature is untouched. -/
def EarlyRampHolds (g : ℕ → ℚ) (hours : Int) : Prop :=
  ∃ traj base,
    generate_patient_data g hours Mode.early = .ok traj ∧
    generate_patient_data g hours Mode.stable = .ok base ∧
    traj.length = base.length ∧
    ∀ i (hi : i < traj.length) (hb : i < base.length),
      (i < 28 → traj.get ⟨i, hi⟩ = base.get ⟨i, hb⟩) ∧
      (28 ≤ i →
        (traj.get ⟨i, hi⟩).heart_rate =
          (base.get ⟨i, hb⟩).heart_rate +
            (np_linspace 0 18 (hours.toNat - 28)).getD (i - 28) 0 ∧
        (traj.get ⟨i, hi⟩).systolic_bp =
          (base.get ⟨i, hb⟩).systolic_bp -
            (np_linspace 0 15 (hours.toNat - 28)).getD (i - 28) 0 ∧
        (traj.get ⟨i, hi⟩).spo2 =
          (base.get ⟨i, hb⟩).spo2 -
            (np_linspace 0 3 (hours.toNat - 28)).getD (i - 28) 0 ∧
        (traj.get ⟨i, hi⟩).temperature = (base.get ⟨i, hb⟩).temperature ∧
        0 ≤ (np_linspace 0 18 (hours.toNat - 28)).getD (i - 28) 0 ∧
        0 ≤ (np_linspace 0 15 (hours.toNat - 28)).getD (i - 28) 0 ∧
        0 ≤ (np_linspace 0 3 (hours.toNat - 28)).getD (i - 28) 0)

/-- What the claim asserts of mode severe: offset `20`, larger ramps on the
same three channels, plus an additive non-negative temperature ramp that
mode early does not have. -/
def SevereRampHolds (g : ℕ → ℚ) (hours : Int) : Prop :=
  ∃ traj base,
    generate_patient_data g hours Mode.severe = .ok traj ∧
    generate_patient_data g hours Mode.stable = .ok base ∧
    traj.length = base.length ∧
    ∀ i (hi : i < traj.length) (hb : i < base.length),
      (i < 20 → traj.get ⟨i, hi⟩ = base.get ⟨i, hb⟩) ∧
      (20 ≤ i →
        (traj.get ⟨i, hi⟩).heart_rate =
          (base.get ⟨i, hb⟩).heart_rate +
            (np_linspace 10 35 (hours.toNat - 20)).getD (i - 20) 0 ∧
        (traj.get ⟨i, hi⟩).systolic_bp =
          (base.get ⟨i, hb⟩).systolic_bp -
            (np_linspace 10 45 (hours.toNat - 20)).getD (i - 20) 0 ∧
        (traj.get ⟨i, hi⟩).spo2 =
          (base.get ⟨i, hb⟩).spo2 -
            (np_linspace 3 9 (hours.toNat - 20)).getD (i - 20) 0 ∧
        (traj.get ⟨i, hi⟩).temperature =
          (base.get ⟨i, hb⟩).temperature +
            (np_linspace 0.3 1.2 (hours.toNat - 20)).getD (i - 20) 0 ∧
        0 ≤ (np_linspace 10 35 (hours.toNat - 20)).getD (i - 20) 0 ∧
        0 ≤ (np_linspace 10 45 (hours.toNat - 20)).getD (i - 20) 0 ∧
        0 ≤ (np_linspace 3 9 (hours.toNat - 20)).getD (i - 20) 0 ∧
        0 ≤ (np_linspace 0.3 1.2 (hours.toNat - 20)).getD (i - 20) 0)

/-- C7: mode early adds a linear ramp starting at offset `28` to
heart_rate (increasing), systolic_bp (decreasing) and spo2 (decreasing)
and no temperature ramp; mode severe adds larger ramps starting at offset
`20` to those three channels plus an additive temperature ramp; in both
modes the ramp is added elementwise on top of the baseline noise (the
values mode stable would produce from the same draws), and samples before
the offset are unchanged. -/
theorem c7_ramp_structure :
    ∀ (g : ℕ → ℚ) (hours : Int),
      (28 ≤ hours → EarlyRampHolds g hours) ∧
      (20 ≤ hours → SevereRampHolds g hours) := by
  intro g hours
  constructor
  · intro h28
    have h0 : ¬ hours < 0 := by omega
    have h1 : ¬ hours < 28 := by omega
    refine ⟨_, _, generate_early_eq g hours h0 h1, generate_stable_eq g hours h0, by simp, ?_⟩
    intro i hi hb
    have hbase : ((List.range hours.toNat).map (base_row g hours.toNat)).get ⟨i, hb⟩ =
        base_row g hours.toNat i := by
      simp [List.get_eq_getElem]
    have htraj : (((List.range hours.toNat).map (base_row g hours.toNat)).map
        (early_ramp_fun hours.toNat)).get ⟨i, hi⟩ =
        early_ramp_fun hours.toNat (base_row g hours.toNat i) := by
      simp [List.get_eq_getElem]
    constructor
    · intro hlt
      rw [htraj, hbase]
      unfold early_ramp_fun
      rw [if_pos (by simpa [base_row] using hlt)]
    · intro hge
      rw [htraj, hbase]
      unfold early_ramp_fun
      rw [if_neg (by simp [base_row]; omega)]
      exact ⟨rfl, rfl, rfl, rfl,
        np_linspace_getD_nonneg _ _ _ _ (by norm_num) (by norm_num),
        np_linspace_getD_nonneg _ _ _ _ (by norm_num) (by norm_num),
        np_linspace_getD_nonneg _ _ _ _ (by norm_num) (by norm_num)⟩
  · intro h20
    have h0 : ¬ hours < 0 := by omega
    have h1 : ¬ hours < 20 := by omega
    refine ⟨_, _, generate_severe_eq g hours h0 h1, generate_stable_eq g hours h0, by simp, ?_⟩
    intro i hi hb
    have hbase : ((List.range hours.toNat).map (base_row g hours.toNat)).get ⟨i, hb⟩ =
        base_row g hours.toNat i := by
      simp [List.get_eq_getElem]
    have htraj : (((List.range hours.toNat).map (base_row g hours.toNat)).map
        (severe_ramp_fun hours.toNat)).get ⟨i, hi⟩ =
        severe_ramp_fun hours.toNat (base_row g hours.toNat i) := by
      simp [List.get_eq_getElem]
    constructor
    · intro hlt
      rw [htraj, hbase]
      unfold severe_ramp_fun
      rw [if_pos (by simpa [base_row] using hlt)]
    · intro hge
      rw [htraj, hbase]
      unfold severe_ramp_fun
      rw [if_neg (by simp [base_row]; omega)]
      exact ⟨rfl, rfl, rfl, rfl,
        np_linspace_getD_nonneg _ _ _ _ (by norm_num) (by norm_num),
        np_linspace_getD_nonneg _ _ _ _ (by norm_num) (by norm_num),
        np_linspace_getD_nonneg _ _ _ _ (by norm_num) (by norm_num),
        np_linspace_getD_nonneg _ _ _ _ (by norm_num) (by norm_num)⟩

/-- C7 witness: at `hours = 48` (the script's default) both ramp
hypotheses are satisfied and both conclusions hold on the all-zero
stream. -/
theorem c7_ramp_structure_witness :
    ((28 : Int) ≤ 48 ∧ (20 : Int) ≤ 48) ∧
    EarlyRampHolds gZero 48 ∧ SevereRampHolds gZero 48 := by
  refine ⟨⟨by norm_num, by norm_num⟩, ?_, ?_⟩
  · exact (c7_ramp_structure gZero 48).1 (by norm_num)
  · exact (c7_ramp_structure gZero 48).2 (by norm_num)

/-- The baseline rows the threaded version draws coincide with `base_row`:
`np.random.seed(42)` resets the position to `0`, so the four batches read
stream positions `[0, n)`, `[n, 2n)`, `[2n, 3n)`, `[3n, 4n)` of seed 42. -/
lemma st_base_eq (G : ℕ → ℕ → ℚ) (n : ℕ) :
    (List.range n).map (fun i =>
      ({ hour := i
       , heart_rate := 78 + 5 * G 42 (0 + i)
       , systolic_bp := 125 + 8 * G 42 (0 + n + i)
       , spo2 := 98 + 1 * G 42 (0 + n + n + i)
       , temperature := 36.8 + 0.2 * G 42 (0 + n + n + n + i) } : VitalSample)) =
    (List.range n).map (base_row (fun i => G 42 i) n) := by
  apply List.map_congr_left
  intro i _
  unfold base_row
  have e1 : 0 + i = i := by omega
  have e2 : 0 + n + i = n + i := by omega
  have e3 : 0 + n + n + i = 2 * n + i := by omega
  have e4 : 0 + n + n + n + i = 3 * n + i := by omega
  rw [e1, e2, e3, e4]

/-- The global generator state a call leaves behind: seeded to key `42`,
advanced by the four `hours`-sized batches (none when `hours < 0`, where
the first `np.random.normal` raises before drawing). -/
lemma generate_st_fst (G : ℕ → ℕ → ℚ) (s : NpRngState) (hours : Int) (mode : Mode) :
    (generate_patient_data_st G s hours mode).fst =
      { key := 42, pos := if hours < 0 then 0 else 4 * hours.toNat } := by
  cases mode <;> unfold generate_patient_data_st np_seed np_normal_batch <;>
    split_ifs <;> simp <;> omega

/-- The result of the threaded version is the pure generator run on the
seed-42 stream, whatever global state the call started from. -/
lemma generate_st_snd (G : ℕ → ℕ → ℚ) (s : NpRngState) (hours : Int) (mode : Mode) :
    (generate_patient_data_st G s hours mode).snd =
      generate_patient_data (fun i => G 42 i) hours mode := by
  have hb := st_base_eq G hours.toNat
  cases mode <;>
    unfold generate_patient_data_st generate_patient_data np_seed np_normal_batch <;>
    split_ifs <;> (try rfl) <;> simp only [] <;> rw [hb]

/-- A stream family in which distinct seed keys and stream positions give
distinct values, used to instantiate counterexamples. -/
def gLin : ℕ → ℕ → ℚ := fun k i => (k : ℚ) + (i : ℚ)

/-- C8 counterexample: `generate_patient_data` takes no seed parameter and
reseeds the process-wide generator with the constant `42` on every call
(`src/app.py:109`), so there is no unseeded-and-random-per-call behavior:
two calls made from different global generator states — here one from a
fresh state and one from a state mid-way through another stream — return
identical sequences. -/
theorem c8_determinism_counterexample :
    (⟨0, 0⟩ : NpRngState) ≠ (⟨7, 3⟩ : NpRngState) ∧
    (generate_patient_data_st gLin ⟨0, 0⟩ 48 Mode.stable).snd =
      (generate_patient_data_st gLin ⟨7, 3⟩ 48 Mode.stable).snd := by
  constructor
  · decide
  · rw [generate_st_snd, generate_st_snd]

/-- C8 amended: the generator accepts no seed argument; because it executes
`np.random.seed(42)` unconditionally, any two calls with identical
`(hours, mode)` return identical sequences regardless of the global
generator state they start from — the output is never random per call. -/
theorem c8_output_independent_of_prior_state :
    ∀ (G : ℕ → ℕ → ℚ) (s s' : NpRngState) (hours : Int) (mode : Mode),
      (generate_patient_data_st G s hours mode).snd =
        (generate_patient_data_st G s' hours mode).snd := by
  intro G s s' hours mode
  rw [generate_st_snd, generate_st_snd]

/-- C9 counterexample: the generator is not free of side effects — calling
it overwrites the process-wide numpy generator state (the state `⟨7, 3⟩`
in force before the call is not the state after it). -/
theorem c9_no_side_effects_counterexample :
    (generate_patient_data_st gLin ⟨7, 3⟩ 48 Mode.stable).fst ≠ ⟨7, 3⟩ := by
  rw [generate_st_fst]
  decide

/-- C9 amended: the generator's only effect outside its return value is on
the process-wide numpy generator, which it deterministically overwrites:
after any call the global state is seeded to key `42` and advanced by the
four batch draws (`4 * hours` normal draws, none when `hours < 0`). -/
theorem c9_global_rng_effect :
    ∀ (G : ℕ → ℕ → ℚ) (s : NpRngState) (hours : Int) (mode : Mode),
      (generate_patient_data_st G s hours mode).fst =
        { key := 42, pos := if hours < 0 then 0 else 4 * hours.toNat } := by
  intro G s hours mode
  exact generate_st_fst G s hours mode

end MedGuard
